import Mathlib

/-!
Shallow embedding of the "Blowing paper airplanes" browser game
(src/script.js): the microphone volume sensor (`AudioController.getVolume`)
and the game engine state with its per-frame physics step (`Game.update`),
reset (`Game.resetPhysics`), round end (`Game.endGame`) and frame loop
(`Game.loop`).

Modelling conventions:
- JS numbers are modelled as exact rationals `ℚ`; decimal literals such as
  `0.98` denote the same decimal fractions the source writes.
- `Math.random()` draws are passed in explicitly as the fields of a
  `FrameRand` record, one field per call site in a frame.
- `Math.atan2` is passed in as an abstract function argument `at2`
  (its value never feeds back into positions, velocities or state).
- The sensor reading `windForce = audioController.getVolume()` is passed
  to `update` as the argument `wind`; `getVolume` itself is modelled
  separately over the sensor's byte buffer.
- The in-memory `this.highScore` and the persisted localStorage value are
  written together and always agree, so a single `highScore` field models
  both.
-/

/-- Sensor state of `AudioController`: the `isListening` flag and the
byte buffer filled by `getByteFrequencyData` (values 0..255). -/
structure AudioController where
  isListening : Bool
  dataArray : List ℕ
deriving DecidableEq

/-- `AudioController.getVolume` (script.js lines 28-38): 0 when not
listening, otherwise the clamped, shifted and scaled mean of the bins. -/
def getVolume (a : AudioController) : ℚ :=
  if a.isListening = false then 0
  else
    let sum : ℚ := (a.dataArray.map (fun b => (b : ℚ))).sum
    let average : ℚ := sum / (a.dataArray.length : ℚ)
    min (max ((average - 10) / 50) 0) 1

/-- Mean of the frequency-bin magnitudes, as the spec describes it. -/
def meanLevel (l : List ℕ) : ℚ := (l.map (fun b => (b : ℚ))).sum / (l.length : ℚ)

/-- Written from the spec's words for `currentLevel()`: 0 when inactive,
otherwise mean minus noise floor 10, divided by 50, clamped to [0,1].
Used only to compare against `getVolume`. -/
def specLevel (a : AudioController) : ℚ :=
  if a.isListening then min (max ((meanLevel a.dataArray - 10) / 50) 0) 1 else 0

/-- Airplane record (velocity components flattened to `vx`, `vy`). -/
structure Airplane where
  x : ℚ
  y : ℚ
  vx : ℚ
  vy : ℚ
  angle : ℚ
  scale : ℚ
deriving DecidableEq

structure Cloud where
  x : ℚ
  y : ℚ
  width : ℚ
  speed : ℚ
deriving DecidableEq

structure Particle where
  x : ℚ
  y : ℚ
  vx : ℚ
  vy : ℚ
  life : ℚ
deriving DecidableEq

/-- `this.state`: one of START, PLAYING, END. -/
inductive GState where
  | START
  | PLAYING
  | END
deriving DecidableEq

/-- The `Game` instance's simulation-relevant fields. -/
structure Game where
  state : GState
  width : ℚ
  height : ℚ
  airplane : Airplane
  cameraX : ℚ
  clouds : List Cloud
  particles : List Particle
  distance : ℚ
  lastTime : ℚ
  highScore : ℚ
  hasStartedBlowing : Bool
  canBlow : Bool
deriving DecidableEq

/-- The `Math.random()` draws a single `update` call may consume,
one field per call site, each in [0,1). -/
structure FrameRand where
  pSpawn : ℚ
  pY : ℚ
  pVx : ℚ
  pVy : ℚ
  cSpawn : ℚ
  cOffset : ℚ
  cY : ℚ
  cWidth : ℚ
  cSpeed : ℚ
deriving DecidableEq

/-- Resting stand top: `height - 150 - height * 0.6` (script.js 124-125). -/
def standY (height : ℚ) : ℚ := height - 150 - height * 0.6

/-- `distance = Math.max(0, (x - 100) / 50)` (script.js line 210). -/
def distanceOf (x : ℚ) : ℚ := max 0 ((x - 100) / 50)

/-- `Game.resetPhysics` (script.js lines 120-134). -/
def resetPhysics (g : Game) : Game :=
  { g with
    airplane :=
      { x := 100, y := standY g.height, vx := 0, vy := 0, angle := 0
        scale := g.airplane.scale }
    distance := 0
    cameraX := 0
    hasStartedBlowing := false
    canBlow := true }

/-- `Game.endGame` (script.js lines 365-375): go to END and persist the
high score when the run's distance strictly exceeds it. -/
def endGame (g : Game) : Game :=
  { g with
    state := GState.END
    highScore := if g.distance > g.highScore then g.distance else g.highScore }

/-- `Game.startGame` (script.js lines 109-118), state/physics part. -/
def startGame (g : Game) (now : ℚ) : Game :=
  { resetPhysics g with state := GState.PLAYING, lastTime := now }

/-- Steps 1-10 of the physics step (script.js lines 144-215): blow boost and
latch, particle emission, glide lift, gravity or stand hold, drag, terminal
velocity clamps, position integration, angle smoothing, distance and camera. -/
def physCore (g : Game) (wind : ℚ) (r : FrameRand) (at2 : ℚ → ℚ → ℚ) : Game :=
  let a := g.airplane
  -- if (windForce > BLOW_THRESHOLD)
  let hsb1 : Bool := if wind > 0.60 then true else g.hasStartedBlowing
  let vx1 := if wind > 0.60 then a.vx + wind * 1.2 else a.vx
  let vy1 := if wind > 0.60 then a.vy - wind * 0.5 else a.vy
  let particles1 :=
    if wind > 0.60 ∧ r.pSpawn > 0.5 then
      g.particles ++
        [{ x := a.x - 20, y := a.y + (r.pY - 0.5) * 20
           vx := -2 - r.pVx * 2, vy := (r.pVy - 0.5) * 1, life := 1.0 }]
    else g.particles
  -- natural glide lift
  let vy2 := vy1 - |vx1| * 0.02
  -- gravity when latched, otherwise hold on the stand
  let vx3 := if hsb1 then vx1 else 0
  let vy3 := if hsb1 then vy2 + 0.75 else 0
  let y3 := if hsb1 then a.y else standY g.height
  -- drag
  let vx4 := vx3 * 0.98
  let vy4 := vy3 * 0.98
  -- terminal velocity
  let vy5 := min vy4 10
  let vx5 := min vx4 20
  -- update position
  let x6 := a.x + vx5
  let y6 := y3 + vy5
  -- smooth rotation towards the velocity vector
  let target := at2 vy5 vx5
  let angle6 := a.angle + (target - a.angle) * 0.1
  { g with
    airplane := { x := x6, y := y6, vx := vx5, vy := vy5, angle := angle6, scale := a.scale }
    particles := particles1
    distance := distanceOf x6
    cameraX := max 0 (x6 - g.width * 0.3)
    hasStartedBlowing := hsb1 }

/-- Ground bounds check (script.js lines 217-220). -/
def checkGround (g : Game) : Game :=
  if g.airplane.y > g.height - 150 then endGame g else g

/-- Ceiling check (script.js lines 222-227). -/
def checkCeiling (g : Game) : Game :=
  if g.airplane.y < g.height * 0.2 then
    { g with airplane := { g.airplane with y := g.height * 0.2, vy := g.airplane.vy * 0.5 } }
  else g

/-- Cloud maintenance (script.js lines 229-240): conditional spawn
(`spawnCloud` adds `camera.x` to the given offset) then parallax filter. -/
def cloudsAfter (clouds : List Cloud) (camX width height : ℚ) (r : FrameRand) : List Cloud :=
  let lastNeeds : Bool :=
    match clouds.getLast? with
    | some c => decide (c.x < camX + width)
    | none => false
  let base :=
    if (decide (clouds.length < 15) || lastNeeds) && decide (r.cSpawn < 0.05) then
      clouds ++
        [{ x := (camX + width + r.cOffset * 200) + camX
           y := r.cY * (height * 0.6)
           width := 100 + r.cWidth * 150
           speed := 0.2 + r.cSpeed * 0.5 }]
    else clouds
  base.filter (fun c => decide (c.x - camX * 0.5 + c.width > -100))

def updateClouds (g : Game) (r : FrameRand) : Game :=
  { g with clouds := cloudsAfter g.clouds g.cameraX g.width g.height r }

/-- One particle integration step (script.js lines 243-247). -/
def stepParticle (p : Particle) : Particle :=
  { p with x := p.x + p.vx, y := p.y + p.vy, life := p.life - 0.05 }

/-- Particle maintenance (script.js lines 242-248). -/
def particlesAfter (ps : List Particle) : List Particle :=
  (ps.map stepParticle).filter (fun p => decide (p.life > 0))

def updateParticles (g : Game) : Game :=
  { g with particles := particlesAfter g.particles }

/-- `Game.update(dt)` (script.js lines 141-249). The `dt` parameter is
declared but never read by the body, exactly as in the source. -/
def update (g : Game) (dt : ℚ) (wind : ℚ) (r : FrameRand) (at2 : ℚ → ℚ → ℚ) : Game :=
  if g.state ≠ GState.PLAYING then g
  else updateParticles (updateClouds (checkCeiling (checkGround (physCore g wind r at2))) r)

/-- `Game.loop(timestamp)` (script.js lines 377-388), state part: bail out
unless PLAYING, compute `dt`, record `lastTime`, run `update`. (`draw` and
`updateUI` mutate no simulation state.) -/
def gameLoop (g : Game) (timestamp : ℚ) (wind : ℚ) (r : FrameRand)
    (at2 : ℚ → ℚ → ℚ) : Game :=
  if g.state ≠ GState.PLAYING then g
  else
    let dt := (timestamp - g.lastTime) / 16
    update { g with lastTime := timestamp } dt wind r at2

/-- A fixed assignment of the frame's random draws, every call site 1/2. -/
def r0 : FrameRand :=
  { pSpawn := 1/2, pY := 1/2, pVx := 1/2, pVy := 1/2
    cSpawn := 1/2, cOffset := 1/2, cY := 1/2, cWidth := 1/2, cSpeed := 1/2 }

/-- A concrete stand-in for `Math.atan2` (the angle never feeds back). -/
def at0 : ℚ → ℚ → ℚ := fun _ _ => 0

/-- The resting state just after `startGame` on an 800x600 viewport with no
clouds or particles: `standY 600 = 90`. -/
def S0 : Game :=
  { state := GState.PLAYING
    width := 800
    height := 600
    airplane := { x := 100, y := 90, vx := 0, vy := 0, angle := 0, scale := 1.5 }
    cameraX := 0
    clouds := []
    particles := []
    distance := 0
    lastTime := 0
    highScore := 0
    hasStartedBlowing := false
    canBlow := true }

/-- The state one frame after `S0` with wind 0: identical except that the
ceiling check has pushed `y` from the stand top 90 to `0.2 * 600 = 120`. -/
def S1 : Game :=
  { S0 with airplane := { x := 100, y := 120, vx := 0, vy := 0, angle := 0, scale := 1.5 } }

/-- Run invariant: non-negative horizontal velocity, camera not ahead of
its target, distance not ahead of its formula. It holds right after
`resetPhysics` and is preserved by `update` for readings `wind ≥ 0`. -/
def RunInv (g : Game) : Prop :=
  0 ≤ g.airplane.vx ∧
  g.cameraX ≤ max 0 (g.airplane.x - g.width * 0.3) ∧
  g.distance ≤ distanceOf g.airplane.x

/-! ### Projection lemmas for the pipeline stages -/

section Lemmas

variable (g : Game) (dt wind ts : ℚ) (r : FrameRand) (at2 : ℚ → ℚ → ℚ)

@[simp] theorem updateClouds_airplane : (updateClouds g r).airplane = g.airplane := rfl

@[simp] theorem updateClouds_state : (updateClouds g r).state = g.state := rfl

@[simp] theorem updateClouds_distance : (updateClouds g r).distance = g.distance := rfl

@[simp] theorem updateClouds_cameraX : (updateClouds g r).cameraX = g.cameraX := rfl

@[simp] theorem updateClouds_hsb : (updateClouds g r).hasStartedBlowing = g.hasStartedBlowing := rfl

@[simp] theorem updateClouds_highScore : (updateClouds g r).highScore = g.highScore := rfl

@[simp] theorem updateClouds_width : (updateClouds g r).width = g.width := rfl

@[simp] theorem updateClouds_height : (updateClouds g r).height = g.height := rfl

@[simp] theorem updateParticles_airplane : (updateParticles g).airplane = g.airplane := rfl

@[simp] theorem updateParticles_state : (updateParticles g).state = g.state := rfl

@[simp] theorem updateParticles_distance : (updateParticles g).distance = g.distance := rfl

@[simp] theorem updateParticles_cameraX : (updateParticles g).cameraX = g.cameraX := rfl

@[simp] theorem updateParticles_hsb : (updateParticles g).hasStartedBlowing = g.hasStartedBlowing := rfl

@[simp] theorem updateParticles_highScore : (updateParticles g).highScore = g.highScore := rfl

@[simp] theorem updateParticles_width : (updateParticles g).width = g.width := rfl

@[simp] theorem updateParticles_height : (updateParticles g).height = g.height := rfl

@[simp] theorem checkGround_airplane : (checkGround g).airplane = g.airplane := by
  unfold checkGround endGame; split <;> rfl

@[simp] theorem checkGround_distance : (checkGround g).distance = g.distance := by
  unfold checkGround endGame; split <;> rfl

@[simp] theorem checkGround_cameraX : (checkGround g).cameraX = g.cameraX := by
  unfold checkGround endGame; split <;> rfl

@[simp] theorem checkGround_hsb : (checkGround g).hasStartedBlowing = g.hasStartedBlowing := by
  unfold checkGround endGame; split <;> rfl

@[simp] theorem checkGround_width : (checkGround g).width = g.width := by
  unfold checkGround endGame; split <;> rfl

@[simp] theorem checkGround_height : (checkGround g).height = g.height := by
  unfold checkGround endGame; split <;> rfl

theorem checkGround_state :
    (checkGround g).state
      = if g.airplane.y > g.height - 150 then GState.END else g.state := by
  unfold checkGround endGame; split <;> rfl

@[simp] theorem checkCeiling_state : (checkCeiling g).state = g.state := by
  unfold checkCeiling; split <;> rfl

@[simp] theorem checkCeiling_distance : (checkCeiling g).distance = g.distance := by
  unfold checkCeiling; split <;> rfl

@[simp] theorem checkCeiling_cameraX : (checkCeiling g).cameraX = g.cameraX := by
  unfold checkCeiling; split <;> rfl

@[simp] theorem checkCeiling_hsb : (checkCeiling g).hasStartedBlowing = g.hasStartedBlowing := by
  unfold checkCeiling; split <;> rfl

@[simp] theorem checkCeiling_width : (checkCeiling g).width = g.width := by
  unfold checkCeiling; split <;> rfl

@[simp] theorem checkCeiling_height : (checkCeiling g).height = g.height := by
  unfold checkCeiling; split <;> rfl

@[simp] theorem checkCeiling_x : (checkCeiling g).airplane.x = g.airplane.x := by
  unfold checkCeiling; split <;> rfl

@[simp] theorem checkCeiling_vx : (checkCeiling g).airplane.vx = g.airplane.vx := by
  unfold checkCeiling; split <;> rfl

theorem checkCeiling_y :
    (checkCeiling g).airplane.y
      = if g.airplane.y < g.height * 0.2 then g.height * 0.2 else g.airplane.y := by
  unfold checkCeiling; split <;> rfl

theorem checkCeiling_vy :
    (checkCeiling g).airplane.vy
      = if g.airplane.y < g.height * 0.2 then g.airplane.vy * 0.5 else g.airplane.vy := by
  unfold checkCeiling; split <;> rfl

@[simp] theorem physCore_state : (physCore g wind r at2).state = g.state := rfl

@[simp] theorem physCore_width : (physCore g wind r at2).width = g.width := rfl

@[simp] theorem physCore_height : (physCore g wind r at2).height = g.height := rfl

@[simp] theorem physCore_highScore : (physCore g wind r at2).highScore = g.highScore := rfl

theorem physCore_hsb :
    (physCore g wind r at2).hasStartedBlowing
      = if wind > 0.60 then true else g.hasStartedBlowing := rfl

theorem physCore_x :
    (physCore g wind r at2).airplane.x
      = g.airplane.x + (physCore g wind r at2).airplane.vx := rfl

theorem physCore_distance :
    (physCore g wind r at2).distance = distanceOf ((physCore g wind r at2).airplane.x) := rfl

theorem physCore_cameraX :
    (physCore g wind r at2).cameraX
      = max 0 ((physCore g wind r at2).airplane.x - g.width * 0.3) := rfl

theorem update_playing (hp : g.state = GState.PLAYING) :
    update g dt wind r at2
      = updateParticles (updateClouds (checkCeiling (checkGround (physCore g wind r at2))) r) := by
  simp [update, hp]

theorem update_not_playing (h : g.state ≠ GState.PLAYING) :
    update g dt wind r at2 = g := by
  simp [update, h]

theorem physCore_hold (hl : g.hasStartedBlowing = false) (hw : wind ≤ 0.60) :
    (physCore g wind r at2).airplane.vx = 0 ∧ (physCore g wind r at2).airplane.vy = 0 ∧
    (physCore g wind r at2).airplane.y = standY g.height ∧
    (physCore g wind r at2).hasStartedBlowing = false := by
  have hc : ¬ ((0.60 : ℚ) < wind) := not_lt.mpr hw
  refine ⟨?_, ?_, ?_, ?_⟩ <;>
    · simp only [physCore, gt_iff_lt, hc, if_false, hl, Bool.false_eq_true, ite_false]
      try norm_num [min_def]

end Lemmas

/-! ### Further helper lemmas -/

theorem distanceOf_mono {x1 x2 : ℚ} (h : x1 ≤ x2) : distanceOf x1 ≤ distanceOf x2 := by
  unfold distanceOf
  exact max_le_max le_rfl (by linarith)

theorem distanceOf_nonneg (x : ℚ) : 0 ≤ distanceOf x := le_max_left _ _

theorem physCore_vx_nonneg (g : Game) (wind : ℚ) (r : FrameRand) (at2 : ℚ → ℚ → ℚ)
    (hvx : 0 ≤ g.airplane.vx) (hw : 0 ≤ wind) :
    0 ≤ (physCore g wind r at2).airplane.vx := by
  unfold physCore
  dsimp only
  refine le_min (mul_nonneg ?_ (by norm_num)) (by norm_num)
  split_ifs
  all_goals
    first
      | exact add_nonneg hvx (mul_nonneg hw (by norm_num))
      | exact hvx
      | exact le_refl 0

theorem step_S0 : update S0 1 0 r0 at0 = S1 := by
  norm_num [update, physCore, checkGround, checkCeiling, updateClouds, updateParticles,
    cloudsAfter, particlesAfter, S0, S1, r0, at0, standY, distanceOf, endGame]

theorem step_S1 : update S1 1 0 r0 at0 = S1 := by
  norm_num [update, physCore, checkGround, checkCeiling, updateClouds, updateParticles,
    cloudsAfter, particlesAfter, S0, S1, r0, at0, standY, distanceOf, endGame]

theorem iterate_S0 : (fun s => update s 1 0 r0 at0)^[100] S0 = S1 := by
  have h : ∀ n : ℕ, (fun s => update s 1 0 r0 at0)^[n + 1] S0 = S1 := by
    intro n
    induction n with
    | zero => rw [Function.iterate_one]; exact step_S0
    | succ k ih => rw [Function.iterate_succ_apply', ih]; exact step_S1
  exact h 99

theorem update_vx_eq (g : Game) (dt wind : ℚ) (r : FrameRand) (at2 : ℚ → ℚ → ℚ)
    (hp : g.state = GState.PLAYING) :
    (update g dt wind r at2).airplane.vx = (physCore g wind r at2).airplane.vx := by
  rw [update_playing g dt wind r at2 hp]; simp

theorem update_hsb_eq (g : Game) (dt wind : ℚ) (r : FrameRand) (at2 : ℚ → ℚ → ℚ)
    (hp : g.state = GState.PLAYING) :
    (update g dt wind r at2).hasStartedBlowing
      = (physCore g wind r at2).hasStartedBlowing := by
  rw [update_playing g dt wind r at2 hp]; simp

theorem update_vy_eq (g : Game) (dt wind : ℚ) (r : FrameRand) (at2 : ℚ → ℚ → ℚ)
    (hp : g.state = GState.PLAYING) :
    (update g dt wind r at2).airplane.vy
      = (checkCeiling (checkGround (physCore g wind r at2))).airplane.vy := by
  rw [update_playing g dt wind r at2 hp]; simp

/-! ### Claim theorems -/

/-- C2: `getVolume` returns 0 when the sensor is inactive and otherwise the
mean of all frequency-bin magnitudes minus the noise floor 10, divided by
50, clamped to [0,1] (this is `specLevel`, written from the spec words);
in all cases the returned value lies in [0,1]. -/
theorem C2_getVolume_correct (a : AudioController) :
    getVolume a = specLevel a ∧ 0 ≤ getVolume a ∧ getVolume a ≤ 1 := by
  refine ⟨?_, ?_, ?_⟩
  · unfold getVolume specLevel meanLevel
    cases h : a.isListening <;> simp [h]
  · unfold getVolume
    split
    · exact le_refl 0
    · exact le_min (le_max_right _ _) (by norm_num)
  · unfold getVolume
    split
    · norm_num
    · exact min_le_right _ _

/-- C5: at game end the stored high score becomes the run's distance exactly
when that distance strictly exceeds the stored value, so the stored value
never decreases across runs. -/
theorem C5_highScore_monotone (g : Game) :
    (endGame g).highScore = (if g.distance > g.highScore then g.distance else g.highScore) ∧
    g.highScore ≤ (endGame g).highScore ∧
    ((endGame g).highScore ≠ g.highScore ↔ g.distance > g.highScore) := by
  refine ⟨rfl, ?_, ?_⟩
  · unfold endGame
    dsimp only
    split
    · exact le_of_lt (by assumption)
    · exact le_refl _
  · unfold endGame
    dsimp only
    split
    · rename_i h
      exact ⟨fun _ => h, fun _ => ne_of_gt h⟩
    · rename_i h
      simp [h]

/-- C7: the `hasStartedBlowing` latch is one-way within a run: `update`
never clears it once true, and only `resetPhysics` sets it back to false. -/
theorem C7_latch_monotone (g : Game) (dt wind : ℚ) (r : FrameRand) (at2 : ℚ → ℚ → ℚ)
    (h : g.hasStartedBlowing = true) :
    (update g dt wind r at2).hasStartedBlowing = true ∧
    (resetPhysics g).hasStartedBlowing = false := by
  refine ⟨?_, rfl⟩
  by_cases hp : g.state = GState.PLAYING
  · rw [update_playing g dt wind r at2 hp]
    simp [physCore_hsb, h]
  · rw [update_not_playing g dt wind r at2 hp]
    exact h

/-- C8: while the state is not PLAYING the engine is frozen: both the
physics step and the whole frame loop leave the game state unchanged. -/
theorem C8_frozen_outside_playing (g : Game) (dt ts wind : ℚ) (r : FrameRand)
    (at2 : ℚ → ℚ → ℚ) (h : g.state ≠ GState.PLAYING) :
    update g dt wind r at2 = g ∧ gameLoop g ts wind r at2 = g :=
  ⟨update_not_playing g dt wind r at2 h, by simp [gameLoop, h]⟩

/-- C10: the physics step ignores its elapsed-time argument entirely: for
any two `dt` values the successor states coincide. -/
theorem C10_dt_independent (g : Game) (dt1 dt2 wind : ℚ) (r : FrameRand)
    (at2 : ℚ → ℚ → ℚ) :
    update g dt1 wind r at2 = update g dt2 wind r at2 := rfl

/-- C3: within a PLAYING physics step, writing `m` for the state after the
force/integration phase (`physCore`), the step ends in END exactly when
m.y exceeds `height - 150`; the ceiling branch fires exactly when
m.y < 0.2 * height, in which case y is clamped to 0.2 * height and the
vertical velocity is halved, and the ceiling branch itself never causes
the END transition. -/
theorem C3_ground_and_ceiling (g : Game) (dt wind : ℚ) (r : FrameRand)
    (at2 : ℚ → ℚ → ℚ) (hp : g.state = GState.PLAYING) :
    ((update g dt wind r at2).state = GState.END ↔
      (physCore g wind r at2).airplane.y > g.height - 150) ∧
    ((physCore g wind r at2).airplane.y < g.height * 0.2 →
      (update g dt wind r at2).airplane.y = g.height * 0.2 ∧
      (update g dt wind r at2).airplane.vy = (physCore g wind r at2).airplane.vy * 0.5) ∧
    (¬ (physCore g wind r at2).airplane.y < g.height * 0.2 →
      (update g dt wind r at2).airplane.y = (physCore g wind r at2).airplane.y ∧
      (update g dt wind r at2).airplane.vy = (physCore g wind r at2).airplane.vy) ∧
    (¬ (physCore g wind r at2).airplane.y > g.height - 150 →
      (update g dt wind r at2).state = GState.PLAYING) := by
  have hstate : (update g dt wind r at2).state
      = (checkGround (physCore g wind r at2)).state := by
    rw [update_playing g dt wind r at2 hp]; simp
  have hy : (update g dt wind r at2).airplane.y
      = (checkCeiling (checkGround (physCore g wind r at2))).airplane.y := by
    rw [update_playing g dt wind r at2 hp]; simp
  have hvy : (update g dt wind r at2).airplane.vy
      = (checkCeiling (checkGround (physCore g wind r at2))).airplane.vy := by
    rw [update_playing g dt wind r at2 hp]; simp
  refine ⟨?_, ?_, ?_, ?_⟩
  · rw [hstate, checkGround_state, physCore_state, physCore_height, hp]
    split_ifs with hc <;> simp [hc]
  · intro h
    constructor
    · rw [hy, checkCeiling_y]
      simp only [checkGround_airplane, checkGround_height, physCore_height]
      rw [if_pos h]
    · rw [hvy, checkCeiling_vy]
      simp only [checkGround_airplane, checkGround_height, physCore_height]
      rw [if_pos h]
  · intro h
    constructor
    · rw [hy, checkCeiling_y]
      simp only [checkGround_airplane, checkGround_height, physCore_height]
      rw [if_neg h]
    · rw [hvy, checkCeiling_vy]
      simp only [checkGround_airplane, checkGround_height, physCore_height]
      rw [if_neg h]
  · intro h
    rw [hstate, checkGround_state, physCore_state, physCore_height, hp, if_neg h]

/-- C6: after a PLAYING physics step the stored distance equals
`max 0 ((x - 100) / 50)` of the resulting airplane x, is non-negative, and
the distance formula is monotone in x. -/
theorem C6_distance_formula (g : Game) (dt wind : ℚ) (r : FrameRand)
    (at2 : ℚ → ℚ → ℚ) (hp : g.state = GState.PLAYING) :
    (update g dt wind r at2).distance
      = distanceOf ((update g dt wind r at2).airplane.x) ∧
    0 ≤ (update g dt wind r at2).distance ∧
    (∀ x1 x2 : ℚ, x1 ≤ x2 → distanceOf x1 ≤ distanceOf x2) := by
  have hx : (update g dt wind r at2).airplane.x = (physCore g wind r at2).airplane.x := by
    rw [update_playing g dt wind r at2 hp]; simp
  have hd : (update g dt wind r at2).distance = (physCore g wind r at2).distance := by
    rw [update_playing g dt wind r at2 hp]; simp
  refine ⟨?_, ?_, ?_⟩
  · rw [hx, hd, physCore_distance]
  · rw [hd, physCore_distance]
    exact distanceOf_nonneg _
  · exact fun x1 x2 h12 => distanceOf_mono h12

/-- C9: with a non-negative sensor reading, a physics step keeps the
horizontal velocity non-negative and moves airplane x, camera x and
distance forward; `resetPhysics` re-establishes the run invariant, so the
monotonicity holds along a whole run. -/
theorem C9_forward_monotone (g : Game) (dt wind : ℚ) (r : FrameRand)
    (at2 : ℚ → ℚ → ℚ) (hInv : RunInv g) (hw : 0 ≤ wind) :
    RunInv (update g dt wind r at2) ∧
    g.airplane.x ≤ (update g dt wind r at2).airplane.x ∧
    g.cameraX ≤ (update g dt wind r at2).cameraX ∧
    g.distance ≤ (update g dt wind r at2).distance ∧
    0 ≤ (update g dt wind r at2).airplane.vx ∧
    RunInv (resetPhysics g) := by
  obtain ⟨hvx, hcam, hdist⟩ := hInv
  have hreset : RunInv (resetPhysics g) := by
    refine ⟨le_refl 0, le_max_left _ _, ?_⟩
    show (0 : ℚ) ≤ distanceOf 100
    unfold distanceOf
    norm_num
  by_cases hp : g.state = GState.PLAYING
  · have hvx5 : 0 ≤ (physCore g wind r at2).airplane.vx :=
      physCore_vx_nonneg g wind r at2 hvx hw
    have hxx : g.airplane.x ≤ (physCore g wind r at2).airplane.x := by
      rw [physCore_x]
      exact le_add_of_nonneg_right hvx5
    have hux : (update g dt wind r at2).airplane.x = (physCore g wind r at2).airplane.x := by
      rw [update_playing g dt wind r at2 hp]; simp
    have huvx : (update g dt wind r at2).airplane.vx = (physCore g wind r at2).airplane.vx := by
      rw [update_playing g dt wind r at2 hp]; simp
    have hucam : (update g dt wind r at2).cameraX = (physCore g wind r at2).cameraX := by
      rw [update_playing g dt wind r at2 hp]; simp
    have hudist : (update g dt wind r at2).distance = (physCore g wind r at2).distance := by
      rw [update_playing g dt wind r at2 hp]; simp
    have huw : (update g dt wind r at2).width = g.width := by
      rw [update_playing g dt wind r at2 hp]; simp
    have hcammono : g.cameraX ≤ (physCore g wind r at2).cameraX := by
      rw [physCore_cameraX]
      exact le_trans hcam (max_le_max (le_refl 0) (by linarith))
    refine ⟨⟨?_, ?_, ?_⟩, ?_, ?_, ?_, ?_, hreset⟩
    · rw [huvx]; exact hvx5
    · rw [hucam, hux, huw, physCore_cameraX]
    · rw [hudist, hux, physCore_distance]
    · rw [hux]; exact hxx
    · rw [hucam]; exact hcammono
    · rw [hudist, physCore_distance]
      exact le_trans hdist (distanceOf_mono hxx)
    · rw [huvx]; exact hvx5
  · rw [update_not_playing g dt wind r at2 hp]
    exact ⟨⟨hvx, hcam, hdist⟩, le_refl _, le_refl _, le_refl _, hvx, hreset⟩

/-- C1 counterexample: in the resting 800x600 state `S0` (latch false,
state PLAYING, stand height `standY 600 = 90`) a physics step with wind
force 0 ends with the airplane at y = 120 — the ceiling clamp
`0.2 * 600`, not the pinned stand height. -/
theorem C1_counterexample :
    S0.state = GState.PLAYING ∧ S0.hasStartedBlowing = false ∧
    standY S0.height = 90 ∧
    (update S0 1 0 r0 at0).airplane.y = 120 ∧
    (update S0 1 0 r0 at0).airplane.y ≠ standY S0.height := by
  refine ⟨rfl, rfl, by norm_num [standY, S0], ?_, ?_⟩
  · rw [step_S0]; rfl
  · rw [step_S0]
    norm_num [S1, S0, standY]

/-- C1 amended: while the latch stays false during a PLAYING step, the
velocity is exactly (0,0) at the end of the step, but the final y is the
stand height clamped by the ceiling, `max (standY h) (0.2 * h)` (these
coincide only for `h ≥ 750`); in the 800x600 wind-0 scenario the airplane
sits at y = 120 with zero velocity and distance 0 for all 100 frames. -/
theorem C1_resting_amended (g : Game) (dt wind : ℚ) (r : FrameRand)
    (at2 : ℚ → ℚ → ℚ) (hp : g.state = GState.PLAYING)
    (hl : g.hasStartedBlowing = false) (hw : wind ≤ 0.60) :
    (update g dt wind r at2).hasStartedBlowing = false ∧
    (update g dt wind r at2).airplane.vx = 0 ∧
    (update g dt wind r at2).airplane.vy = 0 ∧
    (update g dt wind r at2).airplane.y = max (standY g.height) (g.height * 0.2) ∧
    ((fun s => update s 1 0 r0 at0)^[100] S0).airplane.y = 120 ∧
    ((fun s => update s 1 0 r0 at0)^[100] S0).airplane.vx = 0 ∧
    ((fun s => update s 1 0 r0 at0)^[100] S0).airplane.vy = 0 ∧
    ((fun s => update s 1 0 r0 at0)^[100] S0).distance = 0 := by
  obtain ⟨h1, h2, h3, h4⟩ := physCore_hold g wind r at2 hl hw
  have hhsb : (update g dt wind r at2).hasStartedBlowing
      = (physCore g wind r at2).hasStartedBlowing := by
    rw [update_playing g dt wind r at2 hp]; simp
  have hvx : (update g dt wind r at2).airplane.vx
      = (physCore g wind r at2).airplane.vx := by
    rw [update_playing g dt wind r at2 hp]; simp
  have hvy : (update g dt wind r at2).airplane.vy
      = (checkCeiling (checkGround (physCore g wind r at2))).airplane.vy := by
    rw [update_playing g dt wind r at2 hp]; simp
  have hy : (update g dt wind r at2).airplane.y
      = (checkCeiling (checkGround (physCore g wind r at2))).airplane.y := by
    rw [update_playing g dt wind r at2 hp]; simp
  refine ⟨?_, ?_, ?_, ?_, ?_, ?_, ?_, ?_⟩
  · rw [hhsb]; exact h4
  · rw [hvx]; exact h1
  · rw [hvy, checkCeiling_vy]
    simp only [checkGround_airplane, checkGround_height, physCore_height]
    rw [h2]
    split_ifs <;> norm_num
  · rw [hy, checkCeiling_y]
    simp only [checkGround_airplane, checkGround_height, physCore_height]
    rw [h3]
    by_cases hcy : standY g.height < g.height * 0.2
    · rw [if_pos hcy]
      exact (max_eq_right hcy.le).symm
    · rw [if_neg hcy]
      exact (max_eq_left (not_lt.mp hcy)).symm
  · rw [iterate_S0]; rfl
  · rw [iterate_S0]; rfl
  · rw [iterate_S0]; rfl
  · rw [iterate_S0]; rfl

/-- C4 counterexample: from the resting 800x600 state with wind force 0.8,
one physics step leaves the vertical velocity at `40523/250000 > 0`: it
strictly increases (gravity 0.75 is applied in the same frame and exceeds
the blow lift), instead of decreasing as claimed. -/
theorem C4_counterexample :
    S0.airplane.vy = 0 ∧
    (update S0 1 0.8 r0 at0).airplane.vy = 40523 / 250000 ∧
    ¬ (update S0 1 0.8 r0 at0).airplane.vy < S0.airplane.vy := by
  refine ⟨rfl, ?_, ?_⟩ <;>
    norm_num [update, physCore, checkGround, checkCeiling, updateClouds, updateParticles,
      cloudsAfter, particlesAfter, S0, r0, at0, standY, distanceOf, endGame,
      abs_of_nonneg, min_def]

/-- C4 amended: from the resting 800x600 state, one physics step with wind
force 0.8 sets the latch, makes the horizontal velocity strictly positive,
and makes the vertical velocity strictly larger than before (positive,
i.e. downward), for every random draw and every atan2. -/
theorem C4_blow_step_amended (dt : ℚ) (r : FrameRand) (at2 : ℚ → ℚ → ℚ) :
    (update S0 dt 0.8 r at2).hasStartedBlowing = true ∧
    0 < (update S0 dt 0.8 r at2).airplane.vx ∧
    S0.airplane.vy < (update S0 dt 0.8 r at2).airplane.vy := by
  have hp : S0.state = GState.PLAYING := rfl
  have hvx := update_vx_eq S0 dt 0.8 r at2 hp
  have hvy := update_vy_eq S0 dt 0.8 r at2 hp
  have hhsb := update_hsb_eq S0 dt 0.8 r at2 hp
  have hmvx : (physCore S0 0.8 r at2).airplane.vx = 588 / 625 := by
    norm_num [physCore, S0, min_def]
  have hmvy : (physCore S0 0.8 r at2).airplane.vy = 40523 / 125000 := by
    norm_num [physCore, S0, min_def, abs_of_nonneg]
  have hmy : (physCore S0 0.8 r at2).airplane.y = 11290523 / 125000 := by
    norm_num [physCore, S0, min_def, abs_of_nonneg, standY]
  refine ⟨?_, ?_, ?_⟩
  · rw [hhsb, physCore_hsb]
    norm_num
  · rw [hvx, hmvx]
    norm_num
  · rw [hvy, checkCeiling_vy]
    simp only [checkGround_airplane, checkGround_height, physCore_height]
    rw [hmvy, hmy]
    norm_num [S0]

/-! ### Witnesses -/

/-- Witness for C1 amended at the concrete resting state `S0`. -/
theorem C1_resting_amended_witness :
    (update S0 1 0 r0 at0).hasStartedBlowing = false ∧
    (update S0 1 0 r0 at0).airplane.vx = 0 ∧
    (update S0 1 0 r0 at0).airplane.vy = 0 ∧
    (update S0 1 0 r0 at0).airplane.y = max (standY S0.height) (S0.height * 0.2) ∧
    ((fun s => update s 1 0 r0 at0)^[100] S0).airplane.y = 120 ∧
    ((fun s => update s 1 0 r0 at0)^[100] S0).airplane.vx = 0 ∧
    ((fun s => update s 1 0 r0 at0)^[100] S0).airplane.vy = 0 ∧
    ((fun s => update s 1 0 r0 at0)^[100] S0).distance = 0 :=
  C1_resting_amended S0 1 0 r0 at0 rfl rfl (by norm_num)

/-- Witness for C3 at the concrete resting state `S0`. -/
theorem C3_ground_and_ceiling_witness :
    ((update S0 1 0 r0 at0).state = GState.END ↔
      (physCore S0 0 r0 at0).airplane.y > S0.height - 150) ∧
    ((physCore S0 0 r0 at0).airplane.y < S0.height * 0.2 →
      (update S0 1 0 r0 at0).airplane.y = S0.height * 0.2 ∧
      (update S0 1 0 r0 at0).airplane.vy = (physCore S0 0 r0 at0).airplane.vy * 0.5) ∧
    (¬ (physCore S0 0 r0 at0).airplane.y < S0.height * 0.2 →
      (update S0 1 0 r0 at0).airplane.y = (physCore S0 0 r0 at0).airplane.y ∧
      (update S0 1 0 r0 at0).airplane.vy = (physCore S0 0 r0 at0).airplane.vy) ∧
    (¬ (physCore S0 0 r0 at0).airplane.y > S0.height - 150 →
      (update S0 1 0 r0 at0).state = GState.PLAYING) :=
  C3_ground_and_ceiling S0 1 0 r0 at0 rfl

/-- Witness for C6 at the concrete resting state `S0`. -/
theorem C6_distance_formula_witness :
    (update S0 1 0 r0 at0).distance = distanceOf ((update S0 1 0 r0 at0).airplane.x) ∧
    0 ≤ (update S0 1 0 r0 at0).distance ∧
    (∀ x1 x2 : ℚ, x1 ≤ x2 → distanceOf x1 ≤ distanceOf x2) :=
  C6_distance_formula S0 1 0 r0 at0 rfl

/-- Witness for C7 at `S0` with the latch set. -/
theorem C7_latch_monotone_witness :
    (update { S0 with hasStartedBlowing := true } 1 0 r0 at0).hasStartedBlowing = true ∧
    (resetPhysics { S0 with hasStartedBlowing := true }).hasStartedBlowing = false :=
  C7_latch_monotone { S0 with hasStartedBlowing := true } 1 0 r0 at0 rfl

/-- Witness for C8 at `S0` moved to the END state. -/
theorem C8_frozen_outside_playing_witness :
    update { S0 with state := GState.END } 1 0 r0 at0 = { S0 with state := GState.END } ∧
    gameLoop { S0 with state := GState.END } 2 0 r0 at0 = { S0 with state := GState.END } :=
  C8_frozen_outside_playing { S0 with state := GState.END } 1 2 0 r0 at0 (by decide)

/-- Witness for C9 at the concrete resting state `S0`. -/
theorem C9_forward_monotone_witness :
    RunInv (update S0 1 0 r0 at0) ∧
    S0.airplane.x ≤ (update S0 1 0 r0 at0).airplane.x ∧
    S0.cameraX ≤ (update S0 1 0 r0 at0).cameraX ∧
    S0.distance ≤ (update S0 1 0 r0 at0).distance ∧
    0 ≤ (update S0 1 0 r0 at0).airplane.vx ∧
    RunInv (resetPhysics S0) :=
  C9_forward_monotone S0 1 0 r0 at0
    (by norm_num [RunInv, S0, distanceOf, max_def]) (le_refl 0)
